import Mathlib

/-!
Shallow embedding of the example scripts of the repository:
`examples/llm-wrappers-basic.py` (an LLM client stub) and
`examples/integration-utils-http.py` (an HTTP client stub with retry
configuration), together with the backoff computation exercised in
`src/test/integration-utils/test_http_client.py`.

Python optional strings (`None` or `str`) are modelled as `Option String`;
Python truthiness of such a value (falsy exactly for `None` and `""`) is
made explicit.  Python dictionaries with string keys are association lists;
the mixed string/bool payload values of the canned responses are a small
inductive type.  Floats appearing in the corpus (`backoff_factor`,
`base_delay`) only ever hold small exactly-representable values, so they
are embedded as rationals.  The environment (`os.getenv`) is passed in as
an explicit lookup function.  Raising `ValueError` is modelled with
`Except String`.
-/

namespace SpecProof

/-- Python truthiness of an optional string: `None` and `""` are falsy. -/
def truthy (o : Option String) : Bool :=
  match o with
  | none => false
  | some s => !(s == "")

/-- The Python expression `a or b` for optional strings `a`, `b`:
yields `b` whenever `a` is falsy (`None` or `""`). -/
def pyOrStr (a b : Option String) : Option String :=
  match a with
  | none => b
  | some s => if s == "" then b else some s

/-- An `LLMClient` as left behind by a successful `__init__`:
a provider name and the resolved API key. -/
structure LLMClient where
  provider : String
  api_key : String
deriving DecidableEq, Repr

/-- Embedding of `LLMClient.__init__` from `examples/llm-wrappers-basic.py`:
`self.api_key = api_key or os.getenv(f"{provider.upper()}_API_KEY")`, then
`if not self.api_key: raise ValueError(f"API key required for {provider}")`.
The environment is the explicit lookup `env`. -/
def LLMClient.init (env : String → Option String) (provider : String)
    (api_key : Option String := none) : Except String LLMClient :=
  let resolved := pyOrStr api_key (env (provider.toUpper ++ "_API_KEY"))
  match resolved with
  | none => Except.error ("API key required for " ++ provider)
  | some k =>
      if k == "" then Except.error ("API key required for " ++ provider)
      else Except.ok { provider := provider, api_key := k }

/-- The dictionary returned by `LLMClient.complete`. -/
structure CompletionResponse where
  text : String
  tokens_used : Int
  model : String
deriving DecidableEq, Repr

/-- Embedding of `LLMClient.complete`: returns the canned dictionary
`{"text": f"[Response to: {prompt[:50]}...]", "tokens_used": max_tokens,
"model": f"{self.provider}-model"}`. -/
def LLMClient.complete (c : LLMClient) (prompt : String)
    (max_tokens : Int := 100) : CompletionResponse :=
  { text := "[Response to: " ++ prompt.take 50 ++ "...]"
    tokens_used := max_tokens
    model := c.provider ++ "-model" }

/-- `RetryConfig` from `examples/integration-utils-http.py`. -/
structure RetryConfig where
  max_retries : Int
  backoff_factor : ℚ
deriving DecidableEq, Repr

/-- Embedding of `RetryConfig.__init__` with its defaults
(`max_retries=3`, `backoff_factor=2.0`); the attributes are stored
unchanged and nothing is validated. -/
def RetryConfig.init (max_retries : Int := 3) (backoff_factor : ℚ := 2) :
    RetryConfig :=
  { max_retries := max_retries, backoff_factor := backoff_factor }

/-- Embedding of the Python expression `s.rstrip('/')`: remove every
trailing `'/'` character. -/
def rstripSlash (s : String) : String :=
  String.mk ((s.data.reverse.dropWhile (fun c => c == '/')).reverse)

/-- An `HttpClient` as left behind by `__init__`. -/
structure HttpClient where
  base_url : String
  timeout : Int
  headers : List (String × String)
  retry_config : RetryConfig
deriving DecidableEq, Repr

/-- Embedding of `HttpClient.__init__`:
`self.base_url = base_url.rstrip('/')`, `self.timeout = timeout`,
`self.headers = headers or {}`,
`self.retry_config = retry_config or RetryConfig()`. -/
def HttpClient.init (base_url : String) (timeout : Int := 30)
    (headers : Option (List (String × String)) := none)
    (retry_config : Option RetryConfig := none) : HttpClient :=
  { base_url := rstripSlash base_url
    timeout := timeout
    headers := headers.getD []
    retry_config := retry_config.getD RetryConfig.init }

/-- Values of the canned response payload dictionaries: strings and
booleans both occur. -/
inductive JsonVal where
  | s : String → JsonVal
  | b : Bool → JsonVal
deriving DecidableEq, Repr

/-- The dictionary returned by each request method:
`{"status_code": ..., "data": {...}}`. -/
structure HttpResponse where
  status_code : Int
  data : List (String × JsonVal)
deriving DecidableEq, Repr

/-- The URL each request method builds and prints:
`url = f"{self.base_url}{endpoint}"`. -/
def HttpClient.requestUrl (c : HttpClient) (endpoint : String) : String :=
  c.base_url ++ endpoint

/-- Embedding of `HttpClient.get`.  The method mutates nothing, so the
client is returned unchanged alongside the canned response. -/
def HttpClient.get (c : HttpClient) (endpoint : String)
    (params : Option (List (String × String)) := none) :
    HttpResponse × HttpClient :=
  ({ status_code := 200
     data := [("message", JsonVal.s "GET request successful"),
              ("endpoint", JsonVal.s endpoint)] }, c)

/-- Embedding of `HttpClient.post`. -/
def HttpClient.post (c : HttpClient) (endpoint : String)
    (json_data : Option (List (String × JsonVal)) := none) :
    HttpResponse × HttpClient :=
  ({ status_code := 201
     data := [("message", JsonVal.s "POST request successful"),
              ("created", JsonVal.b true)] }, c)

/-- Embedding of `HttpClient.put`. -/
def HttpClient.put (c : HttpClient) (endpoint : String)
    (json_data : Option (List (String × JsonVal)) := none) :
    HttpResponse × HttpClient :=
  ({ status_code := 200
     data := [("message", JsonVal.s "PUT request successful"),
              ("updated", JsonVal.b true)] }, c)

/-- Embedding of `HttpClient.delete`. -/
def HttpClient.delete (c : HttpClient) (endpoint : String) :
    HttpResponse × HttpClient :=
  ({ status_code := 204
     data := [("message", JsonVal.s "DELETE request successful")] }, c)

/-- The exponential backoff computation exercised in
`TestRetryConfig.test_backoff_calculation`:
`delay = base_delay * (backoff_factor ** attempt)`. -/
def backoff_delay (base_delay backoff_factor : ℚ) (attempt : ℕ) : ℚ :=
  base_delay * backoff_factor ^ attempt

/-- Whether a character list contains two consecutive `'/'` characters. -/
def hasDoubleSlash : List Char → Bool
  | [] => false
  | [_] => false
  | a :: b :: rest => (a == '/' && b == '/') || hasDoubleSlash (b :: rest)

/-- C1: constructing an `LLMClient` fails with the configuration error
exactly when neither the explicit `api_key` argument nor the
environment-style lookup under the upper-cased provider name plus
`"_API_KEY"` yields a (nonempty) key; when a source yields a key,
construction succeeds and stores that key, the explicit argument taking
precedence over the environment. -/
theorem llm_init_key_resolution (env : String → Option String)
    (provider : String) (api_key : Option String) :
    ((LLMClient.init env provider api_key
        = Except.error ("API key required for " ++ provider))
      ↔ (truthy api_key = false
         ∧ truthy (env (provider.toUpper ++ "_API_KEY")) = false))
    ∧ (∀ k : String, api_key = some k → k ≠ "" →
        LLMClient.init env provider api_key
          = Except.ok { provider := provider, api_key := k })
    ∧ (truthy api_key = false →
        ∀ k : String, env (provider.toUpper ++ "_API_KEY") = some k →
          k ≠ "" →
          LLMClient.init env provider api_key
            = Except.ok { provider := provider, api_key := k }) := by
  unfold LLMClient.init pyOrStr truthy
  rcases api_key with _ | s
  · rcases he : env (provider.toUpper ++ "_API_KEY") with _ | t
    · simp
    · by_cases ht : t = "" <;> simp [ht]
  · by_cases hs : s = ""
    · subst hs
      rcases he : env (provider.toUpper ++ "_API_KEY") with _ | t
      · simp
      · by_cases ht : t = "" <;> simp [ht]
    · simp [hs]

/-- C1 at concrete inputs: an explicit key is stored, and with no
explicit key and an empty environment construction fails. -/
theorem llm_init_key_resolution_witness :
    LLMClient.init (fun _ => none) "openai" (some "sk-test")
      = Except.ok { provider := "openai", api_key := "sk-test" }
    ∧ LLMClient.init (fun _ => none) "test_provider" none
      = Except.error ("API key required for " ++ "test_provider") :=
  ⟨(llm_init_key_resolution (fun _ => none) "openai"
      (some "sk-test")).2.1 "sk-test" rfl (by decide),
   (llm_init_key_resolution (fun _ => none) "test_provider" none).1.mpr
      ⟨rfl, rfl⟩⟩

/-- C9: an explicit empty-string `api_key` is treated the same as no key
at all: construction behaves exactly as with `None`, falling through to
the environment lookup, and fails with the configuration error when that
lookup also yields no key or an empty string. -/
theorem llm_empty_key_fallback (env : String → Option String)
    (provider : String) :
    LLMClient.init env provider (some "") = LLMClient.init env provider none
    ∧ (truthy (env (provider.toUpper ++ "_API_KEY")) = false →
        LLMClient.init env provider (some "")
          = Except.error ("API key required for " ++ provider)) := by
  constructor
  · simp [LLMClient.init, pyOrStr]
  · intro h
    rcases he : env (provider.toUpper ++ "_API_KEY") with _ | t
    · simp [LLMClient.init, pyOrStr, he]
    · have ht : t = "" := by simpa [truthy, he] using h
      simp [LLMClient.init, pyOrStr, he, ht]

/-- C9 at a concrete input: explicit `""` with an empty environment
fails with the configuration error. -/
theorem llm_empty_key_fallback_witness :
    LLMClient.init (fun _ => none) "openai" (some "")
      = Except.error ("API key required for " ++ "openai") :=
  (llm_empty_key_fallback (fun _ => none) "openai").2 rfl

/-- Dropping a prefix of `n` copies of a character satisfying `p` is
absorbed by `dropWhile p`. -/
theorem dropWhile_replicate_append (p : Char → Bool) (c : Char)
    (h : p c = true) (n : ℕ) (l : List Char) :
    (List.replicate n c ++ l).dropWhile p = l.dropWhile p := by
  induction n with
  | zero => simp
  | succ n ih => simp [List.replicate_succ, List.dropWhile_cons, h, ih]

/-- Appending any number of `'/'` characters to a string does not change
its `rstrip('/')`. -/
theorem rstripSlash_append_slashes (s : String) (n : ℕ) :
    rstripSlash (s ++ String.mk (List.replicate n '/')) = rstripSlash s := by
  unfold rstripSlash
  rw [String.data_append]
  show String.mk (((s.data
      ++ (String.mk (List.replicate n '/')).data).reverse.dropWhile _).reverse)
    = _
  rw [show (String.mk (List.replicate n '/')).data
        = List.replicate n '/' from rfl,
      List.reverse_append, List.reverse_replicate,
      dropWhile_replicate_append _ '/' rfl]

/-- C2 (counterexample): the request URL built from base
`"https://api.example.com/"` and endpoint `"/users"` does contain a
doubled slash — the one inside the scheme separator `"https://"` — even
though the trailing slash of the base was trimmed correctly. -/
theorem url_double_slash_counterexample :
    hasDoubleSlash
        (((HttpClient.init "https://api.example.com/").requestUrl
            "/users").data)
      = true
    ∧ (HttpClient.init "https://api.example.com/").requestUrl "/users"
      = "https://api.example.com/users" := by
  constructor
  · decide
  · decide

/-- C2 (amended): the request URL is the concatenation of the base with
all trailing slashes trimmed at construction and the endpoint; the URL
built from `"https://api.example.com"` with any number of trailing
slashes appended and endpoint `"/users"` equals
`"https://api.example.com/users"` and contains no doubled slash beyond
the scheme separator (no `"//"` after its first 8 characters). -/
theorem request_url_concat (base endpoint : String) (n : ℕ) :
    (HttpClient.init base).requestUrl endpoint = rstripSlash base ++ endpoint
    ∧ (HttpClient.init ("https://api.example.com"
          ++ String.mk (List.replicate n '/'))).requestUrl "/users"
        = "https://api.example.com/users"
    ∧ hasDoubleSlash
        ((((HttpClient.init ("https://api.example.com"
            ++ String.mk (List.replicate n '/'))).requestUrl
              "/users").data).drop 8)
      = false := by
  have h2 : (HttpClient.init ("https://api.example.com"
      ++ String.mk (List.replicate n '/'))).requestUrl "/users"
      = "https://api.example.com/users" := by
    show rstripSlash ("https://api.example.com"
        ++ String.mk (List.replicate n '/')) ++ "/users" = _
    rw [rstripSlash_append_slashes]
    decide
  exact ⟨rfl, h2, by rw [h2]; decide⟩

/-- C3: for every client, endpoint and optional payload, `get`, `post`,
`put` and `delete` return the canned response dictionaries whose status
codes are 200, 201, 200 and 204 respectively, each with its fixed
descriptive data payload. -/
theorem http_methods_canned_responses (c : HttpClient) (endpoint : String)
    (params : Option (List (String × String)))
    (json_data : Option (List (String × JsonVal))) :
    (c.get endpoint params).1
      = { status_code := 200
          data := [("message", JsonVal.s "GET request successful"),
                   ("endpoint", JsonVal.s endpoint)] }
    ∧ (c.post endpoint json_data).1
      = { status_code := 201
          data := [("message", JsonVal.s "POST request successful"),
                   ("created", JsonVal.b true)] }
    ∧ (c.put endpoint json_data).1
      = { status_code := 200
          data := [("message", JsonVal.s "PUT request successful"),
                   ("updated", JsonVal.b true)] }
    ∧ (c.delete endpoint).1
      = { status_code := 204
          data := [("message", JsonVal.s "DELETE request successful")] } :=
  ⟨rfl, rfl, rfl, rfl⟩

/-- C4: for every prompt and token budget, `complete` returns the canned
text embedding the first 50 characters of the prompt followed by `"..."`,
a `tokens_used` equal to the requested budget, and the provider name
suffixed with `"-model"` as the model. -/
theorem llm_complete_canned (c : LLMClient) (prompt : String)
    (max_tokens : Int) :
    (c.complete prompt max_tokens).text
      = "[Response to: " ++ prompt.take 50 ++ "...]"
    ∧ (c.complete prompt max_tokens).tokens_used = max_tokens
    ∧ (c.complete prompt max_tokens).model = c.provider ++ "-model" :=
  ⟨rfl, rfl, rfl⟩

/-- C5: the backoff delay is the pure function
`base_delay * backoff_factor ^ attempt`; at `base_delay = 1.0`,
`backoff_factor = 2.0`, `attempt = 3` it equals `8.0`. -/
theorem backoff_delay_formula (base_delay backoff_factor : ℚ)
    (attempt : ℕ) :
    backoff_delay base_delay backoff_factor attempt
      = base_delay * backoff_factor ^ attempt
    ∧ backoff_delay 1 2 3 = 8 :=
  ⟨rfl, by norm_num [backoff_delay]⟩

/-- C6: `RetryConfig` built with no arguments has `max_retries = 3` and
`backoff_factor = 2.0`, and an `HttpClient` built without a
`retry_config` holds a `RetryConfig` with those same defaults. -/
theorem retry_config_defaults (base : String) (timeout : Int)
    (headers : Option (List (String × String))) :
    RetryConfig.init.max_retries = 3
    ∧ RetryConfig.init.backoff_factor = 2
    ∧ (HttpClient.init base timeout headers none).retry_config
        = RetryConfig.init :=
  ⟨rfl, rfl, rfl⟩

/-- C7: the documented `backoff_factor ≥ 1.0` constraint is never
enforced: for every value, including values below 1.0 such as `1/2`,
`RetryConfig` construction is total (it never raises) and stores both
attributes unchanged. -/
theorem retry_config_unvalidated (max_retries : Int) (backoff_factor : ℚ) :
    (RetryConfig.init max_retries backoff_factor).max_retries = max_retries
    ∧ (RetryConfig.init max_retries backoff_factor).backoff_factor
        = backoff_factor
    ∧ (RetryConfig.init 3 (1/2)).backoff_factor = 1/2 :=
  ⟨rfl, rfl, rfl⟩

/-- C8: the responses of the four request methods do not depend on the
timeout the client was constructed with: two clients differing only in
the timeout produce identical responses for identical arguments. -/
theorem http_timeout_independence (base : String) (t1 t2 : Int)
    (headers : Option (List (String × String)))
    (rc : Option RetryConfig) (endpoint : String)
    (params : Option (List (String × String)))
    (json_data : Option (List (String × JsonVal))) :
    ((HttpClient.init base t1 headers rc).get endpoint params).1
      = ((HttpClient.init base t2 headers rc).get endpoint params).1
    ∧ ((HttpClient.init base t1 headers rc).post endpoint json_data).1
      = ((HttpClient.init base t2 headers rc).post endpoint json_data).1
    ∧ ((HttpClient.init base t1 headers rc).put endpoint json_data).1
      = ((HttpClient.init base t2 headers rc).put endpoint json_data).1
    ∧ ((HttpClient.init base t1 headers rc).delete endpoint).1
      = ((HttpClient.init base t2 headers rc).delete endpoint).1 :=
  ⟨rfl, rfl, rfl, rfl⟩

/-- C10: every request method leaves the client state unchanged: the
client component returned by `get`, `post`, `put` and `delete` is equal
to the client before the call, so its `base_url`, `timeout`, `headers`
and `retry_config` fields are all unchanged. -/
theorem http_methods_frame (c : HttpClient) (endpoint : String)
    (params : Option (List (String × String)))
    (json_data : Option (List (String × JsonVal))) :
    (c.get endpoint params).2 = c
    ∧ (c.post endpoint json_data).2 = c
    ∧ (c.put endpoint json_data).2 = c
    ∧ (c.delete endpoint).2 = c :=
  ⟨rfl, rfl, rfl, rfl⟩

end SpecProof
